import Mathlib

/-!
Verification development for the domino DOM utilities library.

The library is embedded shallowly.  DOM elements are identified by node
identity; the native selector collaborator (Element.matches /
querySelector / querySelectorAll) is a parameter of every function that
uses it, mirroring the source, which consumes the selector primitive and
never reimplements it.  Code that can throw (an invalid selector string
handed to the selector engine, or a user predicate that throws) is
translated into the Except monad.  Timers and mutation batches are
modelled by explicit state passing with natural-number timestamps.
-/

/-- Element of the DOM, identified by node identity.  Equality of the
identifier models JavaScript reference equality on Element objects. -/
structure Elem where
  id : Nat
deriving DecidableEq, Repr

/-- Faults that can escape the library code: the DOMException raised by the
native selector engine on an unparseable selector string, or a fault thrown
by a user-supplied predicate (tagged with a number so distinct faults can be
told apart). -/
inductive Fault where
  | invalidSelector
  | userFault (n : Nat)
deriving DecidableEq, Repr

/-- A DOM node appearing in a mutation record: either an Element or some
other node kind (text or comment node), which the observer loops skip via
their instanceof Element checks. -/
inductive MNode where
  | elem (e : Elem)
  | other
deriving DecidableEq, Repr

/-- The type tag of a native MutationRecord. -/
inductive RecType where
  | childList
  | attributes
  | characterData
deriving DecidableEq, Repr

/-- Shallow embedding of a native MutationRecord. -/
structure MutationRec where
  type : RecType
  target : MNode
  attributeName : Option String
  addedNodes : List MNode
  removedNodes : List MNode
deriving DecidableEq, Repr

/-- A root passed to observe and querySelector calls: the document itself or
an element. -/
inductive RootT where
  | document
  | elem (e : Elem)
deriving DecidableEq, Repr

/-- The ElementTarget union from src/src/types.ts: a CSS selector string, an
Element reference, or a predicate function.  The predicate returns in Except
because a user predicate may throw; the library invokes it directly and
propagates such faults unmodified. -/
inductive ElementTarget where
  | selector (s : String)
  | elementRef (e : Elem)
  | predicate (p : Elem → Except Fault Bool)

/-- JavaScript stringification of an Element: String(el) yields a tag such as
"[object HTMLDivElement]", which is never a parseable CSS selector. -/
def elemToString (_ : Elem) : String := "[object Element]"

/-- JavaScript stringification of a function value: its source text, which is
never a parseable CSS selector. -/
def predicateToString : String := "function"

/-- target.toString() as invoked by wait.ts and by the unguarded observer
variant: the identity on selector strings, and the JavaScript default
stringification on the other two target kinds. -/
def targetToString : ElementTarget → String
  | ElementTarget.selector s => s
  | ElementTarget.elementRef e => elemToString e
  | ElementTarget.predicate _ => predicateToString

/-- The native selector collaborator.  The field valid says whether a string
parses as a selector; matchesRaw and queryAllRaw give the collaborator
results for strings that do parse.  queryAllRaw returns the descendants of
the given root matching the selector, in document order. -/
structure SelectorEngine where
  valid : String → Bool
  matchesRaw : Elem → String → Bool
  queryAllRaw : RootT → String → List Elem

/-- el.matches(s): throws a DOMException when the selector does not parse. -/
def SelectorEngine.elMatches (eng : SelectorEngine) (e : Elem) (s : String) :
    Except Fault Bool :=
  if eng.valid s then Except.ok (eng.matchesRaw e s) else Except.error Fault.invalidSelector

/-- root.querySelectorAll(s): throws a DOMException when the selector does
not parse. -/
def SelectorEngine.queryAllFrom (eng : SelectorEngine) (r : RootT) (s : String) :
    Except Fault (List Elem) :=
  if eng.valid s then Except.ok (eng.queryAllRaw r s) else Except.error Fault.invalidSelector

/-- el.querySelectorAll(s), scoped to the descendants of an element. -/
def SelectorEngine.querySelectorAll (eng : SelectorEngine) (e : Elem) (s : String) :
    Except Fault (List Elem) :=
  eng.queryAllFrom (RootT.elem e) s

/-- root.querySelector(s): the first match in document order, if any. -/
def SelectorEngine.querySelectorFrom (eng : SelectorEngine) (r : RootT) (s : String) :
    Except Fault (Option Elem) :=
  (eng.queryAllFrom r s).map List.head?

/-- el.querySelector(s), scoped to the descendants of an element. -/
def SelectorEngine.querySelector (eng : SelectorEngine) (e : Elem) (s : String) :
    Except Fault (Option Elem) :=
  eng.querySelectorFrom (RootT.elem e) s

namespace Wait

/-- matchesTarget from src/src/wait.ts: selector strings via the native
selector test, Element references via identity equality, predicates by
invoking the function and propagating its result or fault unmodified. -/
def matchesTarget (eng : SelectorEngine) (el : Elem) (target : ElementTarget) :
    Except Fault Bool :=
  match target with
  | ElementTarget.selector s => eng.elMatches el s
  | ElementTarget.elementRef e => Except.ok (el == e)
  | ElementTarget.predicate p => p el

end Wait

namespace ObserverA

/-- matchesTarget from the observer module src/unnamed/part_000, textually
identical to the one in wait.ts. -/
def matchesTarget (eng : SelectorEngine) (el : Elem) (target : ElementTarget) :
    Except Fault Bool :=
  match target with
  | ElementTarget.selector s => eng.elMatches el s
  | ElementTarget.elementRef e => Except.ok (el == e)
  | ElementTarget.predicate p => p el

/-- Handling of one added node inside the MutationObserver callback of
watchAdded in src/unnamed/part_000 (watchRemoved has the same shape over
removedNodes).  Result: the elements passed to the callback in order, whether
observer.disconnect() has been called, and whether the direct-match once path
executed its return statement (which exits the whole observer callback).
The descendant fan-out runs only when subtree is set and the target is a
selector string; its forEach body cannot break out of the forEach, so with
once set every matching descendant is still delivered even though the
observer is disconnected after the first one. -/
def processNode (eng : SelectorEngine) (target : ElementTarget) (subtree once : Bool)
    (node : MNode) : Except Fault (List Elem × Bool × Bool) :=
  match node with
  | MNode.other => Except.ok ([], false, false)
  | MNode.elem e => do
    let m ← matchesTarget eng e target
    if m && once then
      Except.ok ([e], true, true)
    else
      let direct : List Elem := if m then [e] else []
      match target with
      | ElementTarget.selector s =>
        if subtree then do
          let els ← eng.querySelectorAll e s
          Except.ok (direct ++ els, once && !els.isEmpty, false)
        else Except.ok (direct, false, false)
      | _ => Except.ok (direct, false, false)

/-- The loop of watchAdded over the addedNodes of one childList record;
an early return from a node stops the remaining nodes. -/
def processNodes (eng : SelectorEngine) (target : ElementTarget) (subtree once : Bool) :
    List MNode → Except Fault (List Elem × Bool × Bool)
  | [] => Except.ok ([], false, false)
  | n :: ns => do
    let r1 ← processNode eng target subtree once n
    if r1.2.2 then Except.ok r1
    else do
      let r2 ← processNodes eng target subtree once ns
      Except.ok (r1.1 ++ r2.1, r1.2.1 || r2.2.1, r2.2.2)

/-- One delivered batch of watchAdded from src/unnamed/part_000: records that
are not childList records are skipped, and the return triggered by a direct
once match stops all remaining records of the batch.  Result: the elements
passed to the callback, in order, and whether the observer was
disconnected. -/
def watchAddedBatch (eng : SelectorEngine) (target : ElementTarget) (subtree once : Bool) :
    List MutationRec → Except Fault (List Elem × Bool)
  | [] => Except.ok ([], false)
  | r :: rs =>
    if r.type == RecType.childList then do
      let r1 ← processNodes eng target subtree once r.addedNodes
      if r1.2.2 then Except.ok (r1.1, r1.2.1)
      else do
        let r2 ← watchAddedBatch eng target subtree once rs
        Except.ok (r1.1 ++ r2.1, r1.2.1 || r2.2)
    else watchAddedBatch eng target subtree once rs

/-- The ElementChangeInfo record from src/src/types.ts.  attrs keeps the
lazily created Set of attribute names as a duplicate-free list in insertion
order; text and childList are absent-or-true flags. -/
structure ElementChangeInfo where
  attrs : Option (List String)
  text : Bool
  childList : Bool
  records : List MutationRec
deriving DecidableEq, Repr

/-- Set.add on the insertion-ordered attribute name set. -/
def setAdd (xs : List String) (x : String) : List String :=
  if xs.contains x then xs else xs ++ [x]

/-- The body of processChange in watchModified: push the record and set the
flag matching the record type. -/
def applyRecord (r : MutationRec) (c : ElementChangeInfo) : ElementChangeInfo :=
  let c1 : ElementChangeInfo := { c with records := c.records ++ [r] }
  match r.type with
  | RecType.attributes =>
    { c1 with attrs := some (setAdd (c1.attrs.getD []) (r.attributeName.getD "")) }
  | RecType.characterData => { c1 with text := true }
  | RecType.childList => { c1 with childList := true }

/-- The fresh ElementChangeInfo created on first contact with an element
in a batch. -/
def emptyChange : ElementChangeInfo := ⟨none, false, false, []⟩

/-- changes.set(element, change) on the batch map, which a JavaScript Map
keeps in first-insertion order even when a key is updated. -/
def updateAssoc : List (Elem × ElementChangeInfo) → Elem → MutationRec →
    List (Elem × ElementChangeInfo)
  | [], e, r => [(e, applyRecord r emptyChange)]
  | (e1, c) :: rest, e, r =>
    if e1 == e then (e1, applyRecord r c) :: rest
    else (e1, c) :: updateAssoc rest e r

/-- Handling of one record inside the MutationObserver callback of
watchModified in src/unnamed/part_000: non-Element targets are skipped, a
matching mutation target is aggregated, and when subtree is set and the
target is a selector string the matching descendants are aggregated as
well. -/
def processModRecord (eng : SelectorEngine) (target : ElementTarget) (subtree : Bool)
    (m : List (Elem × ElementChangeInfo)) (r : MutationRec) :
    Except Fault (List (Elem × ElementChangeInfo)) :=
  match r.target with
  | MNode.other => Except.ok m
  | MNode.elem mt => do
    let matched ← matchesTarget eng mt target
    let m1 := if matched then updateAssoc m mt r else m
    match target with
    | ElementTarget.selector s =>
      if subtree then do
        let els ← eng.querySelectorAll mt s
        Except.ok (els.foldl (fun acc el => updateAssoc acc el r) m1)
      else Except.ok m1
    | _ => Except.ok m1

/-- One delivered batch of watchModified from src/unnamed/part_000.  The
delivery loop is changes.forEach, which invokes the callback for every
aggregated element and only afterwards disconnects when once is set; it never
skips the remaining aggregated callbacks of the batch.  Result: the
(element, change) pairs passed to the callback, in first-observed order, and
whether the observer was disconnected. -/
def watchModifiedBatch (eng : SelectorEngine) (target : ElementTarget) (subtree once : Bool)
    (recs : List MutationRec) :
    Except Fault (List (Elem × ElementChangeInfo) × Bool) := do
  let m ← recs.foldlM (processModRecord eng target subtree) []
  Except.ok (m, once && !m.isEmpty)

end ObserverA

/-- The attributes option of watchModified: a boolean flag or an array of
attribute names to filter on. -/
inductive AttrOption where
  | flag (b : Bool)
  | filter (names : List String)
deriving DecidableEq, Repr

/-- The options record handed to the native observer.observe call. -/
structure MutationObserverInit where
  attributes : Bool
  attributeFilter : Option (List String)
  characterData : Bool
  childList : Bool
  subtree : Bool
deriving DecidableEq, Repr

/-- The observe options computed by watchModified in src/unnamed/part_000:
attributes is the literal true regardless of the configured flag, and
attributeFilter is set exactly when the configured option is an array. -/
def ObserverA.watchModifiedInit (attrs : AttrOption) (characterData childList subtree : Bool) :
    MutationObserverInit :=
  { attributes := true
    attributeFilter :=
      match attrs with
      | AttrOption.filter ns => some ns
      | AttrOption.flag _ => none
    characterData := characterData
    childList := childList
    subtree := subtree }

/-- Semantics of the mutation-reporting collaborator: whether a native
observer registered with the given options delivers a record of the given
kind.  Attribute records pass when attribute observation is on and the name
is within the filter, if one is set; characterData and childList records pass
exactly when their flags are set. -/
def recObserved (init : MutationObserverInit) (r : MutationRec) : Bool :=
  match r.type with
  | RecType.attributes =>
    init.attributes &&
      (match init.attributeFilter with
       | some ns =>
         match r.attributeName with
         | some n => ns.contains n
         | none => false
       | none => true)
  | RecType.characterData => init.characterData
  | RecType.childList => init.childList

namespace ObserverB

/-- matchesTarget from the observer module src/unnamed/part_001, textually
identical to the one in wait.ts. -/
def matchesTarget (eng : SelectorEngine) (el : Elem) (target : ElementTarget) :
    Except Fault Bool :=
  match target with
  | ElementTarget.selector s => eng.elMatches el s
  | ElementTarget.elementRef e => Except.ok (el == e)
  | ElementTarget.predicate p => p el

/-- Handling of one added node inside the MutationObserver callback of
watchAdded in src/unnamed/part_001.  Unlike the part_000 variant, the
descendant fan-out is guarded only by subtree and stringifies the target:
node.querySelectorAll(target.toString()) runs for every target kind, so for
an ElementRef or Predicate target the selector engine receives the default
JavaScript stringification of the target. -/
def processNode (eng : SelectorEngine) (target : ElementTarget) (subtree once : Bool)
    (node : MNode) : Except Fault (List Elem × Bool × Bool) :=
  match node with
  | MNode.other => Except.ok ([], false, false)
  | MNode.elem e => do
    let m ← matchesTarget eng e target
    if m && once then
      Except.ok ([e], true, true)
    else
      let direct : List Elem := if m then [e] else []
      if subtree then do
        let els ← eng.querySelectorAll e (targetToString target)
        Except.ok (direct ++ els, once && !els.isEmpty, false)
      else Except.ok (direct, false, false)

end ObserverB

namespace Wait

/-- The isElementTarget type guard from src/src/wait.ts: selector strings and
Element references pass, predicates do not. -/
def isElementTarget : ElementTarget → Bool
  | ElementTarget.predicate _ => false
  | _ => true

/-- Outcome of the synchronous phase of waitFor: either the promise is
resolved immediately with an existing element and no observer is created, or
the call goes on to create a mutation observer. -/
inductive WaitInit where
  | settled (e : Elem)
  | observing
deriving DecidableEq, Repr

/-- The already-exists check at the top of waitFor in src/src/wait.ts.  For a
selector or Element target it runs root.querySelector(target.toString())
when subtree is set, document.querySelector(target.toString()) when subtree
is unset and the root is the document, and skips the check otherwise; a found
element short-circuits to a resolved promise before any observer is
created. -/
def waitForInitial (eng : SelectorEngine) (root : RootT) (subtree : Bool)
    (target : ElementTarget) : Except Fault WaitInit :=
  if isElementTarget target then do
    let existing ←
      if subtree then eng.querySelectorFrom root (targetToString target)
      else
        if root == RootT.document then
          eng.querySelectorFrom RootT.document (targetToString target)
        else Except.ok none
    match existing with
    | some e => Except.ok (WaitInit.settled e)
    | none => Except.ok WaitInit.observing
  else Except.ok WaitInit.observing

/-- The body of waitForRemoved in src/src/wait.ts goes straight to
Promise.race over a fresh observer: there is no already-removed
short-circuit of any kind. -/
def waitForRemovedInitial (_eng : SelectorEngine) (_root : RootT) (_subtree : Bool)
    (_target : ElementTarget) : WaitInit :=
  WaitInit.observing

/-- Handling of one added node inside the observer callback of waitFor: a
direct match settles with the node; otherwise, when subtree is set,
node.querySelector(target.toString()) is consulted for a descendant match
regardless of the target kind. -/
def waitNode (eng : SelectorEngine) (subtree : Bool) (target : ElementTarget)
    (n : MNode) : Except Fault (Option Elem) :=
  match n with
  | MNode.other => Except.ok none
  | MNode.elem e => do
    let m ← matchesTarget eng e target
    if m then Except.ok (some e)
    else if subtree then eng.querySelector e (targetToString target)
    else Except.ok none

/-- The loop of waitFor over the addedNodes of one childList record; the
first settling node stops the scan. -/
def waitNodes (eng : SelectorEngine) (subtree : Bool) (target : ElementTarget) :
    List MNode → Except Fault (Option Elem)
  | [] => Except.ok none
  | n :: ns => do
    let r ← waitNode eng subtree target n
    match r with
    | some e => Except.ok (some e)
    | none => waitNodes eng subtree target ns

/-- One delivered batch of the waitFor observer: the element the wait settles
with, if any record of the batch produces one. -/
def waitForBatch (eng : SelectorEngine) (subtree : Bool) (target : ElementTarget) :
    List MutationRec → Except Fault (Option Elem)
  | [] => Except.ok none
  | r :: rs =>
    if r.type == RecType.childList then do
      let res ← waitNodes eng subtree target r.addedNodes
      match res with
      | some e => Except.ok (some e)
      | none => waitForBatch eng subtree target rs
    else waitForBatch eng subtree target rs

/-- The loop of waitForRemoved over the removedNodes of one childList record:
only directly removed Element nodes are tested against the target; there is
no descendant scan of any kind. -/
def waitForRemovedNodes (eng : SelectorEngine) (target : ElementTarget) :
    List MNode → Except Fault Bool
  | [] => Except.ok false
  | n :: ns =>
    match n with
    | MNode.other => waitForRemovedNodes eng target ns
    | MNode.elem e => do
      let m ← matchesTarget eng e target
      if m then Except.ok true else waitForRemovedNodes eng target ns

/-- One delivered batch of the waitForRemoved observer: whether the wait
settles on this batch. -/
def waitForRemovedBatch (eng : SelectorEngine) (target : ElementTarget) :
    List MutationRec → Except Fault Bool
  | [] => Except.ok false
  | r :: rs =>
    if r.type == RecType.childList then do
      let settledHere ← waitForRemovedNodes eng target r.removedNodes
      if settledHere then Except.ok true else waitForRemovedBatch eng target rs
    else waitForRemovedBatch eng target rs

end Wait

/-- An AbortSignal as seen by one watch or wait call: absent, already aborted
before the call, or aborting at a positive time after the call. -/
inductive AbortSig where
  | noSignal
  | alreadyAborted
  | abortsLater (t : Nat)
deriving DecidableEq, Repr

/-- Semantics of signal.addEventListener applied to the abort event: the
listener runs only when the abort happens after registration.  For a signal
that is already aborted at registration time the abort event has already
been dispatched and the listener never runs. -/
def listenerFires : AbortSig → Option Nat
  | AbortSig.abortsLater t => some t
  | _ => none

/-- What the watch functions set up around the signal: the native observer is
created and observe is called unconditionally, and then the disconnect
listener is registered on the signal; no branch consults signal.aborted. -/
structure WatchSetup where
  observerCreated : Bool
  abortFiresAt : Option Nat
deriving DecidableEq, Repr

/-- Session wiring of watchAdded, watchRemoved and watchModified with respect
to the abort signal. -/
def watchSetup (sig : AbortSig) : WatchSetup :=
  ⟨true, listenerFires sig⟩

/-- The instant the native observer of a watch session is disconnected: the
earlier of the explicit disposer call and the abort listener run, if
either ever happens. -/
def sessionDisconnectTime (sig : AbortSig) (disposeAt : Option Nat) : Option Nat :=
  match listenerFires sig, disposeAt with
  | none, none => none
  | some a, none => some a
  | none, some d => some d
  | some a, some d => some (min a d)

/-- Whether a batch arriving at time t is still delivered to the session
callback: delivery continues until the observer is disconnected. -/
def deliversAt (sig : AbortSig) (disposeAt : Option Nat) (t : Nat) : Bool :=
  match sessionDisconnectTime sig disposeAt with
  | none => true
  | some d => decide (t < d)

/-- The WaitOptions record of src/src/types.ts as destructured by the three
wait functions. -/
structure WaitOptions where
  root : RootT
  timeout : Option Nat
  signal : AbortSig
  subtree : Bool

/-- The DefaultTimeout constant of src/src/wait.ts. -/
def DefaultTimeout : Nat := 10000

/-- The message of the rejection produced by createTimeoutPromise. -/
def timeoutMessage (ms : Nat) : String :=
  "Operation timed out after " ++ toString ms ++ "ms"

/-- A timeout promise: the timer delay and the message of the Error it
rejects with.  setTimeout never fires before its delay has elapsed, so the
rejection happens no earlier than fireAt after creation. -/
structure TimeoutPromise where
  fireAt : Nat
  message : String
deriving DecidableEq, Repr

/-- createTimeoutPromise from src/src/wait.ts. -/
def createTimeoutPromise (ms : Nat) : TimeoutPromise :=
  ⟨ms, timeoutMessage ms⟩

/-- The timeout duration destructured by waitFor, defaulting to
DefaultTimeout when the option is absent. -/
def waitForTimeoutMs (o : WaitOptions) : Nat := o.timeout.getD DefaultTimeout

/-- The timeout duration destructured by waitForRemoved. -/
def waitForRemovedTimeoutMs (o : WaitOptions) : Nat := o.timeout.getD DefaultTimeout

/-- The timeout duration destructured by waitForChange. -/
def waitForChangeTimeoutMs (o : WaitOptions) : Nat := o.timeout.getD DefaultTimeout

/-- Settlement of the Promise.race run by the three wait functions. -/
inductive WaitOutcome where
  | matched (t : Nat)
  | aborted (t : Nat)
  | timedOut (t : Nat) (msg : String)
deriving DecidableEq, Repr

/-- The race between the match settlement, the abort listener rejection and
the timeout rejection, given the times at which the first two would settle
(if ever) and the configured timeout duration.  The earliest settlement wins;
the timeout timer fires at exactly the configured duration. -/
def raceOutcome (ms : Nat) (matchAt abortAt : Option Nat) : WaitOutcome :=
  match matchAt, abortAt with
  | some m, some a =>
    if m ≤ a ∧ m ≤ ms then WaitOutcome.matched m
    else if a ≤ ms then WaitOutcome.aborted a
    else WaitOutcome.timedOut ms (timeoutMessage ms)
  | some m, none =>
    if m ≤ ms then WaitOutcome.matched m
    else WaitOutcome.timedOut ms (timeoutMessage ms)
  | none, some a =>
    if a ≤ ms then WaitOutcome.aborted a
    else WaitOutcome.timedOut ms (timeoutMessage ms)
  | none, none => WaitOutcome.timedOut ms (timeoutMessage ms)

/-- Mutable state of the closure produced by throttle in src/unnamed
part_000: the lastRun timestamp, and the trailing timer with its scheduled
fire instant and the arguments it will execute with.  A freshly created
throttle wrapper has lastRun zero and no trailing timer. -/
structure ThrottleState (A : Type) where
  lastRun : Nat
  pending : Option (Nat × A)
deriving DecidableEq, Repr

/-- Servicing of the single-threaded timer queue up to time t for the
throttle wrapper: a trailing timer whose instant has arrived executes the
wrapped function with its stored arguments and sets lastRun to the fire
instant, exactly as the setTimeout body does. -/
def throttleFire {A : Type} (s : ThrottleState A) (t : Nat) :
    ThrottleState A × List (Nat × A) :=
  match s.pending with
  | some (ft, a) =>
    if ft ≤ t then ({ lastRun := ft, pending := none }, [(ft, a)]) else (s, [])
  | none => (s, [])

/-- One call of the throttled function at time t.  Timers already due run
first (the timer queue is serviced before later synchronous code).  Then, as
in the source, a call with now - lastRun at least ms executes immediately and
records lastRun = now, while an earlier call clears the previous trailing
timer and schedules one executing these arguments after ms - (now - lastRun),
in other words at the instant lastRun + ms.  The returned list holds the
executions of the wrapped function, as (time, arguments) pairs in order. -/
def throttleCall {A : Type} (ms : Nat) (s : ThrottleState A) (t : Nat) (a : A) :
    ThrottleState A × List (Nat × A) :=
  let fp := throttleFire s t
  if fp.1.lastRun + ms ≤ t then
    ({ lastRun := t, pending := fp.1.pending }, fp.2 ++ [(t, a)])
  else
    ({ lastRun := fp.1.lastRun, pending := some (fp.1.lastRun + ms, a) }, fp.2)

/-- A sequence of calls of the throttled function at increasing times,
collecting every execution of the wrapped function. -/
def runThrottle {A : Type} (ms : Nat) (s : ThrottleState A) :
    List (Nat × A) → ThrottleState A × List (Nat × A)
  | [] => (s, [])
  | (t, a) :: rest =>
    let r1 := throttleCall ms s t a
    let r2 := runThrottle ms r1.1 rest
    (r2.1, r1.2 ++ r2.2)

/-- A watch session whose callback is wrapped in debounce: the native
observer connection flag, and the pending debounce timer with its fire
instant and the element argument it will deliver. -/
structure Session where
  disconnected : Bool
  pendingTimer : Option (Nat × Elem)
deriving DecidableEq, Repr

/-- The observer delivering one matching element to the debounced callback
at time t: clearTimeout followed by setTimeout(fn, ms) replaces whatever
timer was pending by one firing at t + ms with this element.  A disconnected
observer delivers nothing, so the session state is unchanged. -/
def debDeliver (ms : Nat) (s : Session) (t : Nat) (el : Elem) : Session :=
  if s.disconnected then s
  else { s with pendingTimer := some (t + ms, el) }

/-- The disposer returned by the watch functions.  In the source it is the
closure observer.disconnect() and nothing else: it does not touch the
rate-limiter timer state. -/
def sessDispose (s : Session) : Session :=
  { s with disconnected := true }

/-- Servicing of the timer queue up to time t for the session: a pending
debounce timer whose instant has arrived invokes the user callback with its
stored element. -/
def timerFire (s : Session) (t : Nat) : Session × List (Nat × Elem) :=
  match s.pendingTimer with
  | some (ft, el) =>
    if ft ≤ t then ({ s with pendingTimer := none }, [(ft, el)]) else (s, [])
  | none => (s, [])

/-- A selector engine in which the only parseable selector is ".x" and every
element matches it; selector queries find nothing.  Used to exercise the
direct-match paths. -/
def engX : SelectorEngine :=
  { valid := fun s => s == ".x"
    matchesRaw := fun _ _ => true
    queryAllRaw := fun _ _ => [] }

/-- A selector engine in which the only parseable selector is ".x", every
element matches it, and querying the document for it finds the single
element 7.  The stringifications of Element references and predicates do not
parse, as in a browser. -/
def engC : SelectorEngine :=
  { valid := fun s => s == ".x"
    matchesRaw := fun _ _ => true
    queryAllRaw := fun r s => if r == RootT.document && s == ".x" then [⟨7⟩] else [] }

/-- A selector engine for the removal scenarios: ".x" is the only parseable
selector, element 2 is the only element matching it, and element 2 is a
descendant of element 1, so querying element 1 for ".x" finds it. -/
def engD : SelectorEngine :=
  { valid := fun s => s == ".x"
    matchesRaw := fun e _ => e == (⟨2⟩ : Elem)
    queryAllRaw := fun r _ => if r == RootT.elem ⟨1⟩ then [⟨2⟩] else [] }

/-- The same DOM as engD but with a selector-query collaborator that finds
nothing, used to witness that waitForRemoved never consults the query
collaborator. -/
def engD2 : SelectorEngine :=
  { valid := fun s => s == ".x"
    matchesRaw := fun e _ => e == (⟨2⟩ : Elem)
    queryAllRaw := fun _ _ => [] }

/-- A predicate target that matches nothing and never throws. -/
def predFalse : ElementTarget :=
  ElementTarget.predicate (fun _ => Except.ok false)

/-- An attribute mutation record on element 1 for the name a. -/
def attrRecA : MutationRec :=
  ⟨RecType.attributes, MNode.elem ⟨1⟩, some "a", [], []⟩

/-- An attribute mutation record on element 2 for the name b. -/
def attrRecB : MutationRec :=
  ⟨RecType.attributes, MNode.elem ⟨2⟩, some "b", [], []⟩

/-- A childList record adding the given nodes. -/
def addRec (ns : List MNode) : MutationRec :=
  ⟨RecType.childList, MNode.other, none, ns, []⟩

/-- A childList record removing the given nodes. -/
def remRec (ns : List MNode) : MutationRec :=
  ⟨RecType.childList, MNode.other, none, [], ns⟩

/-- Claim C9: target matching is a pure function of the element and the
target for all three target kinds — the selector kind via the native
selector test, the ElementRef kind via identity equality, the Predicate kind
by invoking the predicate and propagating its result and any fault
unmodified — and the matcher compiled into the wait path and the matchers
compiled into both observer modules agree on every input. -/
theorem matchesTarget_pure_and_shared :
    (∀ (eng : SelectorEngine) (el : Elem) (t : ElementTarget),
      Wait.matchesTarget eng el t = ObserverA.matchesTarget eng el t ∧
      Wait.matchesTarget eng el t = ObserverB.matchesTarget eng el t) ∧
    (∀ (eng : SelectorEngine) (el : Elem) (s : String),
      Wait.matchesTarget eng el (ElementTarget.selector s) = eng.elMatches el s) ∧
    (∀ (eng : SelectorEngine) (el e : Elem),
      Wait.matchesTarget eng el (ElementTarget.elementRef e) = Except.ok (el == e)) ∧
    (∀ (eng : SelectorEngine) (el : Elem) (p : Elem → Except Fault Bool),
      Wait.matchesTarget eng el (ElementTarget.predicate p) = p el) :=
  ⟨fun _ _ _ => ⟨rfl, rfl⟩, fun _ _ _ => rfl, fun _ _ _ => rfl, fun _ _ _ => rfl⟩

/-- Claim C2: contrary to the claim, waitFor with an ElementRef target never
settles synchronously with the existing element: the already-exists check
runs root.querySelector(String(el)), and the stringification of an Element
is not a parseable selector, so the call throws a DOMException — here, with
a root under which the element is present, the synchronous phase returns the
invalidSelector fault instead of settling.  The second conjunct records that
the stringified Element reference does not parse, and the third shows the
selector-target path of the same check settling synchronously as claimed. -/
theorem waitFor_elementRef_existing_throws :
    Wait.waitForInitial engC RootT.document true (ElementTarget.elementRef ⟨5⟩) =
      Except.error Fault.invalidSelector ∧
    engC.valid (targetToString (ElementTarget.elementRef ⟨5⟩)) = false ∧
    Wait.waitForInitial engC RootT.document true (ElementTarget.selector ".x") =
      Except.ok (Wait.WaitInit.settled ⟨7⟩) :=
  ⟨rfl, rfl, rfl⟩

/-- Claim C4: contrary to the claim, the descendant fan-out is attempted for
every target kind wherever the guard is only on subtree: the waitFor
observer callback and the part_001 watchAdded callback call
querySelector(target.toString()) for a Predicate target, whose
stringification is not a parseable selector, so processing an added
non-matching element throws a DOMException instead of merely testing the
node and moving on.  The last conjunct shows the guarded part_000 variant on
the same input: no fan-out, no callback, no fault. -/
theorem waitFor_predicate_subtree_throws :
    Wait.waitForBatch engC true predFalse [addRec [MNode.elem ⟨1⟩]] =
      Except.error Fault.invalidSelector ∧
    ObserverB.processNode engC predFalse true false (MNode.elem ⟨1⟩) =
      Except.error Fault.invalidSelector ∧
    ObserverA.processNode engC predFalse true false (MNode.elem ⟨1⟩) =
      Except.ok ([], false, false) :=
  ⟨rfl, rfl, rfl⟩

/-- Claim C7: contrary to the claim, watchModified registers the native
observer with attributes set to the literal true whatever the configured
flag is, so with the option attributes set to false an attribute mutation is
still observed and reported.  The last conjunct shows the array form working
as claimed: with a filter only the listed names are observed. -/
theorem watchModified_attributes_false_observed :
    ObserverA.watchModifiedInit (AttrOption.flag false) true true true =
      { attributes := true, attributeFilter := none, characterData := true,
        childList := true, subtree := true } ∧
    recObserved (ObserverA.watchModifiedInit (AttrOption.flag false) true true true)
      attrRecA = true ∧
    recObserved (ObserverA.watchModifiedInit (AttrOption.filter ["data-test"]) true true true)
      attrRecA = false ∧
    recObserved (ObserverA.watchModifiedInit (AttrOption.filter ["a"]) true true true)
      attrRecA = true :=
  ⟨rfl, rfl, by decide, by decide⟩

/-- Claim C10: when the supplied AbortSignal is already aborted at call time
the observer is still created, the abort is never acted upon (cancellation
is wired solely through an abort event listener, which never runs for a
signal aborted before registration), such a watch session keeps delivering
callbacks until explicitly disposed, and such a wait can settle only via a
match or the timeout, never with the Aborted failure. -/
theorem already_aborted_signal_ignored :
    (∀ sig : AbortSig, (watchSetup sig).observerCreated = true) ∧
    listenerFires AbortSig.alreadyAborted = none ∧
    (∀ t : Nat, deliversAt AbortSig.alreadyAborted none t = true) ∧
    (∀ d t : Nat, deliversAt AbortSig.alreadyAborted (some d) t = decide (t < d)) ∧
    (∀ (ms : Nat) (matchAt : Option Nat) (t : Nat),
      raceOutcome ms matchAt (listenerFires AbortSig.alreadyAborted) ≠
        WaitOutcome.aborted t) := by
  refine ⟨fun _ => rfl, rfl, fun _ => rfl, fun _ _ => rfl, ?_⟩
  intro ms matchAt t
  cases matchAt with
  | none => simp [raceOutcome, listenerFires]
  | some m =>
    simp only [raceOutcome, listenerFires]
    split
    · simp
    · simp

/-- Claim C8: a wait that neither settles with a match nor is aborted within
the configured timeout rejects with the Timeout failure, whose message
carries the configured millisecond duration; all three wait functions
resolve an absent timeout option to 10000 milliseconds; and the rejection
fires at exactly the configured duration in this model (setTimeout never
fires early), hence no earlier than it. -/
theorem wait_timeout_behavior :
    (∀ o : WaitOptions, o.timeout = none →
      waitForTimeoutMs o = 10000 ∧ waitForRemovedTimeoutMs o = 10000 ∧
        waitForChangeTimeoutMs o = 10000) ∧
    (∀ ms : Nat, createTimeoutPromise ms =
      ⟨ms, "Operation timed out after " ++ toString ms ++ "ms"⟩) ∧
    (∀ (ms : Nat) (matchAt abortAt : Option Nat),
      (∀ m, matchAt = some m → ms < m) → (∀ a, abortAt = some a → ms < a) →
      raceOutcome ms matchAt abortAt =
        WaitOutcome.timedOut ms (timeoutMessage ms)) := by
  refine ⟨?_, fun _ => rfl, ?_⟩
  · intro o h
    refine ⟨?_, ?_, ?_⟩ <;>
      simp [waitForTimeoutMs, waitForRemovedTimeoutMs, waitForChangeTimeoutMs, h,
        DefaultTimeout]
  · intro ms matchAt abortAt hm ha
    cases matchAt with
    | none =>
      cases abortAt with
      | none => rfl
      | some a =>
        have h1 := ha a rfl
        simp only [raceOutcome]
        rw [if_neg (by omega)]
    | some m =>
      have h2 := hm m rfl
      cases abortAt with
      | none =>
        simp only [raceOutcome]
        rw [if_neg (by omega)]
      | some a =>
        have h1 := ha a rfl
        simp only [raceOutcome]
        rw [if_neg (by omega), if_neg (by omega)]

/-- Witness for wait_timeout_behavior at a concrete input: an options record
with no timeout configured resolves to 10000 in all three wait functions,
and a race in which neither a match nor an abort ever arrives times out at
100 with the message carrying 100. -/
theorem wait_timeout_behavior_witness :
    (waitForTimeoutMs ⟨RootT.document, none, AbortSig.noSignal, true⟩ = 10000 ∧
      waitForRemovedTimeoutMs ⟨RootT.document, none, AbortSig.noSignal, true⟩ = 10000 ∧
      waitForChangeTimeoutMs ⟨RootT.document, none, AbortSig.noSignal, true⟩ = 10000) ∧
    raceOutcome 100 none none = WaitOutcome.timedOut 100 (timeoutMessage 100) :=
  ⟨wait_timeout_behavior.1 ⟨RootT.document, none, AbortSig.noSignal, true⟩ rfl,
    wait_timeout_behavior.2.2 100 none none (fun m h => by cases h) (fun a h => by cases h)⟩

/-- Helper: the immediate path of the throttle wrapper when no trailing
timer is pending. -/
theorem throttleCall_run_now {A : Type} (ms : Nat) (s : ThrottleState A) (t : Nat) (a : A)
    (h1 : s.pending = none) (h2 : s.lastRun + ms ≤ t) :
    throttleCall ms s t a = ({ lastRun := t, pending := none }, [(t, a)]) := by
  simp only [throttleCall, throttleFire, h1, List.nil_append]
  rw [if_pos h2]

/-- Claim C6: a throttled call arriving at least ms after the last execution
runs immediately and records the execution time; a call arriving sooner
executes nothing now and is deferred to the single trailing timer at
lastRun + ms, which will run with this call's arguments, superseding the
arguments of any earlier deferred call; and two calls spaced at least ms
apart each execute individually with their own arguments. -/
theorem throttle_window_behavior :
    (∀ (ms : Nat) (s : ThrottleState Nat) (t : Nat) (a : Nat),
      s.pending = none → s.lastRun + ms ≤ t →
      throttleCall ms s t a = ({ lastRun := t, pending := none }, [(t, a)])) ∧
    (∀ (ms : Nat) (s : ThrottleState Nat) (t : Nat) (a : Nat),
      (∀ ft b, s.pending = some (ft, b) → t < ft) → t < s.lastRun + ms →
      throttleCall ms s t a =
        ({ lastRun := s.lastRun, pending := some (s.lastRun + ms, a) }, [])) ∧
    (∀ (ms t1 t2 a1 a2 : Nat), ms ≤ t1 → t1 + ms ≤ t2 →
      (runThrottle ms ({ lastRun := 0, pending := none } : ThrottleState Nat)
          [(t1, a1), (t2, a2)]).2 = [(t1, a1), (t2, a2)]) := by
  refine ⟨fun ms s t a h1 h2 => throttleCall_run_now ms s t a h1 h2, ?_, ?_⟩
  · intro ms s t a h1 h2
    match hp : s.pending with
    | none =>
      simp only [throttleCall, throttleFire, hp]
      rw [if_neg (by omega)]
    | some (ft, b) =>
      have h3 := h1 ft b hp
      have hf : throttleFire s t = (s, []) := by
        simp only [throttleFire, hp]
        rw [if_neg (show ¬ ft ≤ t by omega)]
      simp only [throttleCall, hf]
      rw [if_neg (by omega)]
  · intro ms t1 t2 a1 a2 h1 h2
    have e1 : throttleCall ms ({ lastRun := 0, pending := none } : ThrottleState Nat) t1 a1 =
        ({ lastRun := t1, pending := none }, [(t1, a1)]) :=
      throttleCall_run_now ms _ t1 a1 rfl (show 0 + ms ≤ t1 by omega)
    have e2 : throttleCall ms ({ lastRun := t1, pending := none } : ThrottleState Nat) t2 a2 =
        ({ lastRun := t2, pending := none }, [(t2, a2)]) :=
      throttleCall_run_now ms _ t2 a2 rfl (show t1 + ms ≤ t2 by omega)
    simp [runThrottle, e1, e2]

/-- Witness for throttle_window_behavior at concrete inputs: with a window
of 10, a call at 115 after a last run at 100 executes immediately; a call at
105 with a trailing timer pending at 110 holding arguments 9 is deferred to
110 with its own arguments 7; and calls at 50 and 60 both execute. -/
theorem throttle_window_behavior_witness :
    throttleCall 10 ({ lastRun := 100, pending := none } : ThrottleState Nat) 115 5 =
      ({ lastRun := 115, pending := none }, [(115, 5)]) ∧
    throttleCall 10 ({ lastRun := 100, pending := some (110, 9) } : ThrottleState Nat) 105 7 =
      ({ lastRun := 100, pending := some (110, 7) }, []) ∧
    (runThrottle 10 ({ lastRun := 0, pending := none } : ThrottleState Nat)
        [(50, 1), (60, 2)]).2 = [(50, 1), (60, 2)] :=
  ⟨throttle_window_behavior.1 10 _ 115 5 rfl (by decide),
    throttle_window_behavior.2.1 10 _ 105 7 (fun ft b h => by simp at h; omega) (by decide),
    throttle_window_behavior.2.2 10 50 60 1 2 (by omega) (by omega)⟩

/-- Claim C3, counterexample: a debounce timer scheduled by a delivery at
time 0 with window 100 survives the disposer (which only calls
observer.disconnect) and fires the user callback at time 100, after
disposal — contradicting the claim that no user callback is delivered after
the Disposer runs. -/
theorem disposer_pending_debounce_fires :
    (timerFire (sessDispose
        (debDeliver 100 { disconnected := false, pendingTimer := none } 0 ⟨1⟩)) 100).2 =
      [(100, (⟨1⟩ : Elem))] := by
  decide

/-- Claim C3, amended: the Disposer detaches the native observer, so no
batch delivered after disposal reaches the rate-limited callback; but it
does not cancel a pending debounce or throttle timer — disposal leaves the
pending timer untouched, and a timer already scheduled before disposal still
fires its user callback afterwards. -/
theorem disposer_detach_amended :
    (∀ (ms : Nat) (s : Session) (t : Nat) (el : Elem),
      s.disconnected = true → debDeliver ms s t el = s) ∧
    (∀ s : Session, (sessDispose s).disconnected = true ∧
      (sessDispose s).pendingTimer = s.pendingTimer) ∧
    (timerFire (sessDispose { disconnected := false, pendingTimer := some (100, ⟨1⟩) }) 100).2 =
      [(100, (⟨1⟩ : Elem))] := by
  refine ⟨?_, fun s => ⟨rfl, rfl⟩, by decide⟩
  intro ms s t el h
  simp [debDeliver, h]

/-- Witness for disposer_detach_amended: a disconnected session ignores a
delivery. -/
theorem disposer_detach_amended_witness :
    debDeliver 50 { disconnected := true, pendingTimer := none } 7 ⟨2⟩ =
      { disconnected := true, pendingTimer := none } :=
  disposer_detach_amended.1 50 { disconnected := true, pendingTimer := none } 7 ⟨2⟩ rfl

/-- Claim C1, counterexample: a watchModified session with once set, given
one batch whose two attribute records touch two matching elements,
aggregates two entries and its delivery loop (changes.forEach) invokes the
user callback for both of them — two user-visible callbacks, contradicting
the claimed at-most-one with the remaining aggregated callbacks skipped. -/
theorem watchModified_once_two_callbacks :
    (ObserverA.watchModifiedBatch engX (ElementTarget.selector ".x") false true
        [attrRecA, attrRecB]).map (fun p => p.1.length) = Except.ok 2 := rfl

/-- Claim C1, amended: with once set the direct-match path of watchAdded and
watchRemoved returns out of the whole batch right after the first callback
with the observer already disconnected — so two directly matching elements
added in one batch yield exactly one callback — but the delivery loops that
run inside a forEach do not stop: watchModified with once still invokes the
callback for every aggregated element of the current batch (disconnecting
only after the first), as the second conjunct shows on a concrete batch with
two aggregated elements. -/
theorem once_single_callback_amended :
    (∀ (eng : SelectorEngine) (target : ElementTarget) (subtree : Bool) (e1 e2 : Elem),
      ObserverA.matchesTarget eng e1 target = Except.ok true →
      ObserverA.watchAddedBatch eng target subtree true
        [addRec [MNode.elem e1, MNode.elem e2]] = Except.ok ([e1], true)) ∧
    ObserverA.watchModifiedBatch engX (ElementTarget.selector ".x") false true
        [attrRecA, attrRecB] =
      Except.ok ([(⟨1⟩, ⟨some ["a"], false, false, [attrRecA]⟩),
                  (⟨2⟩, ⟨some ["b"], false, false, [attrRecB]⟩)], true) := by
  constructor
  · intro eng target subtree e1 e2 h
    simp [ObserverA.watchAddedBatch, ObserverA.processNodes, ObserverA.processNode, h,
      addRec, Bind.bind, Except.bind]
  · rfl

/-- Witness for once_single_callback_amended: two elements matching the
selector ".x" added directly in one batch of a once watchAdded session give
exactly one callback and a disconnected observer. -/
theorem once_single_callback_amended_witness :
    ObserverA.watchAddedBatch engX (ElementTarget.selector ".x") true true
      [addRec [MNode.elem ⟨1⟩, MNode.elem ⟨2⟩]] = Except.ok ([(⟨1⟩ : Elem)], true) :=
  once_single_callback_amended.1 engX (ElementTarget.selector ".x") true ⟨1⟩ ⟨2⟩ rfl

/-- Claim C5, counterexample: a batch removing element 1, whose descendant
element 2 matches the selector ".x" (the engine records both that element 2
matches and that the selector query under element 1 would find it), does not
settle waitForRemoved — contradicting the claimed settlement on a matching
descendant of a removed node. -/
theorem waitForRemoved_descendant_no_settle :
    engD.elMatches ⟨1⟩ ".x" = Except.ok false ∧
    engD.elMatches ⟨2⟩ ".x" = Except.ok true ∧
    engD.querySelectorAll ⟨1⟩ ".x" = Except.ok [⟨2⟩] ∧
    Wait.waitForRemovedBatch engD (ElementTarget.selector ".x")
      [remRec [MNode.elem ⟨1⟩]] = Except.ok false :=
  ⟨rfl, rfl, rfl, rfl⟩

/-- Helper: the wait-path matcher never consults the selector-query
collaborator, so two engines agreeing on selector validity and the element
match test agree on every matching decision. -/
theorem matchesTarget_query_free (eng eng2 : SelectorEngine) (h1 : eng.valid = eng2.valid)
    (h2 : eng.matchesRaw = eng2.matchesRaw) (e : Elem) (target : ElementTarget) :
    Wait.matchesTarget eng e target = Wait.matchesTarget eng2 e target := by
  cases target <;> simp [Wait.matchesTarget, SelectorEngine.elMatches, h1, h2]

/-- Helper: the removed-nodes loop of waitForRemoved is independent of the
selector-query collaborator. -/
theorem waitForRemovedNodes_query_free (eng eng2 : SelectorEngine)
    (h1 : eng.valid = eng2.valid) (h2 : eng.matchesRaw = eng2.matchesRaw)
    (target : ElementTarget) :
    ∀ ns : List MNode,
      Wait.waitForRemovedNodes eng target ns = Wait.waitForRemovedNodes eng2 target ns := by
  intro ns
  induction ns with
  | nil => rfl
  | cons n ns ih =>
    cases n with
    | other => simpa [Wait.waitForRemovedNodes] using ih
    | elem e =>
      simp only [Wait.waitForRemovedNodes,
        matchesTarget_query_free eng eng2 h1 h2 e target, ih]

/-- Claim C5, amended: waitForRemoved always creates an observer (its body
goes straight to the race, with no already-removed shortcut), and it settles
Matched on the first directly removed node matching the target; descendants
of removed nodes are never examined — its batch processing is independent of
the selector-query collaborator altogether. -/
theorem waitForRemoved_direct_only_amended :
    (∀ (eng : SelectorEngine) (root : RootT) (subtree : Bool) (target : ElementTarget),
      Wait.waitForRemovedInitial eng root subtree target = Wait.WaitInit.observing) ∧
    (∀ (eng : SelectorEngine) (target : ElementTarget) (e : Elem),
      Wait.matchesTarget eng e target = Except.ok true →
      Wait.waitForRemovedBatch eng target [remRec [MNode.elem e]] = Except.ok true) ∧
    (∀ (eng eng2 : SelectorEngine) (target : ElementTarget) (recs : List MutationRec),
      eng.valid = eng2.valid → eng.matchesRaw = eng2.matchesRaw →
      Wait.waitForRemovedBatch eng target recs =
        Wait.waitForRemovedBatch eng2 target recs) := by
  refine ⟨fun _ _ _ _ => rfl, ?_, ?_⟩
  · intro eng target e h
    simp [Wait.waitForRemovedBatch, Wait.waitForRemovedNodes, remRec, h,
      Bind.bind, Except.bind]
  · intro eng eng2 target recs h1 h2
    induction recs with
    | nil => rfl
    | cons r rs ih =>
      simp only [Wait.waitForRemovedBatch,
        waitForRemovedNodes_query_free eng eng2 h1 h2 target r.removedNodes, ih]

/-- Witness for waitForRemoved_direct_only_amended: the engD and engD2
engines agree on matching but disagree on selector queries, and
waitForRemoved behaves identically under them; and a batch directly removing
the matching element 2 settles the wait. -/
theorem waitForRemoved_direct_only_amended_witness :
    Wait.waitForRemovedBatch engD (ElementTarget.selector ".x")
        [remRec [MNode.elem ⟨1⟩], remRec [MNode.elem ⟨2⟩]] =
      Wait.waitForRemovedBatch engD2 (ElementTarget.selector ".x")
        [remRec [MNode.elem ⟨1⟩], remRec [MNode.elem ⟨2⟩]] ∧
    Wait.waitForRemovedBatch engD (ElementTarget.selector ".x")
        [remRec [MNode.elem ⟨2⟩]] = Except.ok true :=
  ⟨waitForRemoved_direct_only_amended.2.2 engD engD2 (ElementTarget.selector ".x")
      [remRec [MNode.elem ⟨1⟩], remRec [MNode.elem ⟨2⟩]] rfl rfl,
    waitForRemoved_direct_only_amended.2.1 engD (ElementTarget.selector ".x") ⟨2⟩ rfl⟩
